import Mathlib

/-!
Verification of the "Mystical Team" content API (FastAPI + MongoDB backend).

The development shallowly embeds the two source files of the repository,
`src/main.py` (routes: serialize_doc, list_articles, get_article,
create_article, seed_content) and `src/schemas.py` (the pydantic `Article`
model).  The module `database` (the Mongo handle `db`, `create_document`,
`get_documents`) is not part of the sources; its operations are modelled
from the specification of the Document Store Adapter (spec sections 4.1 and
6), and each such definition carries a doc comment saying so.

Stored documents are modelled as Python dicts: association lists from
string keys to BSON-like values, with dict operations (membership, pop,
item assignment) matching Python dict semantics on unique-key lists.
-/

namespace MysticalAPI

/-- Naive datetime in the style of the Python `datetime` values stored by
the backend (year, month, day, hour, minute, second, microsecond). -/
structure Datetime where
  year : Nat
  month : Nat
  day : Nat
  hour : Nat
  minute : Nat
  second : Nat
  microsecond : Nat
deriving DecidableEq, Repr

/-- Left-pad the decimal representation of a number with zeros to a given
width, as Python `%04d`-style formatting does inside `datetime.isoformat`. -/
def padZeros (w n : Nat) : String :=
  let s := toString n
  String.mk (List.replicate (w - s.length) '0') ++ s

/-- The ISO-8601 rendering produced by Python `datetime.isoformat()` for a
naive datetime: `YYYY-MM-DDTHH:MM:SS`, with `.ffffff` appended exactly when
the microsecond component is nonzero. -/
def Datetime.isoformat (t : Datetime) : String :=
  padZeros 4 t.year ++ "-" ++ padZeros 2 t.month ++ "-" ++ padZeros 2 t.day ++
    "T" ++ padZeros 2 t.hour ++ ":" ++ padZeros 2 t.minute ++ ":" ++
    padZeros 2 t.second ++
    (if t.microsecond == 0 then "" else "." ++ padZeros 6 t.microsecond)

/-- The `str(datetime)` rendering (isoformat with a space separator),
used when Python `str()` is applied to a datetime value. -/
def Datetime.pyStr (t : Datetime) : String :=
  padZeros 4 t.year ++ "-" ++ padZeros 2 t.month ++ "-" ++ padZeros 2 t.day ++
    " " ++ padZeros 2 t.hour ++ ":" ++ padZeros 2 t.minute ++ ":" ++
    padZeros 2 t.second ++
    (if t.microsecond == 0 then "" else "." ++ padZeros 6 t.microsecond)

/-- Values that can appear in a stored document.  An `objectId` is the
store-assigned identifier; it is represented by its 24-character lowercase
hexadecimal rendering, which is exactly what Python `str(ObjectId(...))`
produces. -/
inductive BsonVal where
  | objectId (hex : String)
  | str (s : String)
  | datetime (t : Datetime)
  | int (n : Int)
  | bool (b : Bool)
  | null
deriving DecidableEq, Repr

/-- Python `str()` applied to a stored value (total, never fails). -/
def pyStr : BsonVal → String
  | .objectId h => h
  | .str s => s
  | .datetime t => t.pyStr
  | .int n => toString n
  | .bool b => if b then "True" else "False"
  | .null => "None"

/-- A stored document: a Python dict from string keys to values, modelled
as an association list in insertion order (keys unique in every document
the system builds). -/
abbrev Doc := List (String × BsonVal)

/-- Python `d[k]` lookup returning an option (`d.get(k)`); first matching
key. -/
def dictGet? (k : String) (d : Doc) : Option BsonVal :=
  (d.find? (fun kv => kv.1 == k)).map (fun kv => kv.2)

/-- Python `k in d` membership test. -/
def dictContains (k : String) (d : Doc) : Bool :=
  (dictGet? k d).isSome

/-- Python `d.pop(k)` effect on the dict: every binding of `k` removed. -/
def dictPop (k : String) (d : Doc) : Doc :=
  d.filter (fun kv => !(kv.1 == k))

/-- Python `d[k] = v` assignment: overwrite in place when the key is
present, otherwise append at the end (dict insertion order). -/
def dictSet (k : String) (v : BsonVal) (d : Doc) : Doc :=
  if dictContains k d then
    d.map (fun kv => if kv.1 = k then (k, v) else kv)
  else
    d ++ [(k, v)]

/-- The datetime-to-string conversion applied valuewise by the loop in
`serialize_doc` (`if isinstance(v, datetime): d[k] = v.isoformat()`). -/
def convertDatetimes : BsonVal → BsonVal
  | .datetime t => .str t.isoformat
  | v => v

/-- Embedding of `serialize_doc` (src/main.py lines 23-31): copy the dict;
if `_id` is present, pop it and assign `id = str(_id)`; then replace every
datetime value by its isoformat string. -/
def serialize_doc (doc : Doc) : Doc :=
  let d :=
    match dictGet? "_id" doc with
    | some v => dictSet "id" (.str (pyStr v)) (dictPop "_id" doc)
    | none => doc
  d.map (fun kv => (kv.1, convertDatetimes kv.2))

/-- Matcher for the regular-expression fragment the development needs:
a pattern is a sequence of items, each a literal character or the
metacharacter `.` (match any single character).  `regexMatchAt pat s`
decides whether the pattern matches a prefix of `s`, case-insensitively
(PCRE option `i`). -/
def regexMatchAt : List Char → List Char → Bool
  | [], _ => true
  | _ :: _, [] => false
  | p :: ps, c :: cs => (p == '.' || p.toLower == c.toLower) && regexMatchAt ps cs

/-- Modelled from the spec (store adapter, sections 4.1 and 4.3): MongoDB
evaluates `{"$regex": pat, "$options": "i"}` by an unanchored,
case-insensitive regular-expression search over the string field — the
field matches when the pattern matches starting at some position.  The
pattern language embedded here is the fragment of literal characters and
the `.` metacharacter. -/
def regexSearchI (pat s : String) : Bool :=
  s.data.tails.any (fun suffix => regexMatchAt pat.data suffix)

/-- The filter dict built by `list_articles`: an optional exact-match
constraint on `category` and an optional case-insensitive `$regex`
constraint on `title`. -/
structure Filter where
  category : Option String
  titleRegex : Option String
deriving DecidableEq, Repr

/-- Python truthiness of an optional string (`if category:`): `None` and
the empty string are falsy. -/
def optTruthy : Option String → Bool
  | none => false
  | some s => !(s == "")

/-- Embedding of the filter construction in `list_articles`
(src/main.py lines 91-95): the `category` key is set when `category` is
truthy, the `title` regex key when `q` is truthy. -/
def buildFilter (category q : Option String) : Filter :=
  { category := if optTruthy category then category else none
    titleRegex := if optTruthy q then q else none }

/-- Modelled from the spec (section 4.1): whether a stored document
matches a filter expression — equality on `category`, case-insensitive
regex search on `title`; a missing or non-string field matches neither
constraint. -/
def matchesFilter (f : Filter) (d : Doc) : Bool :=
  (match f.category with
   | none => true
   | some c => dictGet? "category" d == some (.str c)) &&
  (match f.titleRegex with
   | none => true
   | some q =>
     match dictGet? "title" d with
     | some (.str t) => regexSearchI q t
     | _ => false)

/-- Modelled from the spec (section 4.1, `findMany(filter, limit)`): the
`get_documents` operation of the absent `database` module returns up to
`limit` records matching the filter, in store order. -/
def get_documents (store : List Doc) (f : Filter) (limit : Nat) : List Doc :=
  (store.filter (matchesFilter f)).take limit

/-- An HTTP error response: status code and detail message. -/
abbrev ErrResp := Nat × String

/-- Embedding of the `GET /api/articles` handler `list_articles`
(src/main.py lines 82-98).  The database handle is `none` when the store
is unconfigured.  The collection `article` is the list of its documents. -/
def list_articles (db : Option (List Doc)) (category q : Option String)
    (limit : Nat) : Except ErrResp (List Doc) :=
  match db with
  | none => .error (500, "Database not configured")
  | some store =>
    .ok ((get_documents store (buildFilter category q) limit).map serialize_doc)

/-- Hexadecimal digit test (`0-9`, `a-f`, `A-F`). -/
def isHexChar (c : Char) : Bool :=
  c.isDigit || ('a' ≤ c && c ≤ 'f') || ('A' ≤ c && c ≤ 'F')

/-- Syntactic validity of an article id for `bson.ObjectId(article_id)`:
a 24-character hexadecimal string (otherwise the constructor raises and
the handler answers 400). -/
def isValidObjectId (s : String) : Bool :=
  s.length == 24 && s.data.all isHexChar

/-- The canonical (lowercase) hexadecimal form of an ObjectId string:
`ObjectId` compares by the underlying bytes, so hex case is irrelevant. -/
def oidCanon (s : String) : String := String.mk (s.data.map Char.toLower)

/-- Modelled from the spec (section 4.1, `findById`): the store's
`find_one({"_id": oid})` returns the document whose `_id` equals the
given identifier, or nothing. -/
def find_one_by_id (store : List Doc) (oidHex : String) : Option Doc :=
  store.find? (fun d => dictGet? "_id" d == some (.objectId oidHex))

/-- Embedding of the `GET /api/articles/{article_id}` handler
`get_article` (src/main.py lines 101-113): 500 when the store is
unconfigured, 400 when `ObjectId(article_id)` raises, 404 when the lookup
returns a falsy document, otherwise the serialized document. -/
def get_article (db : Option (List Doc)) (article_id : String) :
    Except ErrResp Doc :=
  match db with
  | none => .error (500, "Database not configured")
  | some store =>
    if isValidObjectId article_id then
      match find_one_by_id store (oidCanon article_id) with
      | none => .error (404, "Article not found")
      | some d =>
        if d.isEmpty then .error (404, "Article not found")
        else .ok (serialize_doc d)
    else .error (400, "Invalid article id")

/-- Embedding of the pydantic model `Article` (src/schemas.py lines
13-29): title and content required strings, category a literal from a
fixed set, summary, image_url and published_at optional. -/
structure Article where
  title : String
  category : String
  summary : Option String
  content : String
  image_url : Option String
  published_at : Option Datetime
deriving DecidableEq, Repr

/-- The categories admitted by the `Literal` annotation on
`Article.category`. -/
def allowedCategories : List String := ["history", "mythology", "science"]

/-- Minimal embedding of the pydantic `HttpUrl` syntax check: an http or
https scheme followed by a nonempty host part. -/
def isHttpUrl (u : String) : Bool :=
  "http://".isPrefixOf u && u.length > 7 ||
  "https://".isPrefixOf u && u.length > 8

/-- Construction-time validation of an `Article`, as pydantic performs it
when the model is instantiated (before any store operation): the category
must belong to the literal set and the image URL, when present, must be
syntactically valid.  Returns the validated model or a validation error. -/
def Article.validate (title category : String) (summary : Option String)
    (content : String) (image_url : Option String)
    (published_at : Option Datetime) : Except String Article :=
  if !(allowedCategories.contains category) then
    .error ("Input should be a literal value: category=" ++ category)
  else
    match image_url with
    | some u =>
      if isHttpUrl u then
        .ok ⟨title, category, summary, content, some u, published_at⟩
      else .error "URL scheme should be http or https: image_url"
    | none => .ok ⟨title, category, summary, content, none, published_at⟩

/-- The document persisted for an article: the model fields in
declaration order with unset optional fields omitted, preceded by the
store-assigned `_id` (spec section 6, persisted record shape). -/
def articleToDoc (oid : String) (a : Article) : Doc :=
  [("_id", BsonVal.objectId oid), ("title", BsonVal.str a.title),
   ("category", BsonVal.str a.category)] ++
  (match a.summary with
   | some s => [("summary", BsonVal.str s)]
   | none => []) ++
  [("content", BsonVal.str a.content)] ++
  (match a.image_url with
   | some u => [("image_url", BsonVal.str u)]
   | none => []) ++
  (match a.published_at with
   | some t => [("published_at", BsonVal.datetime t)]
   | none => [])

/-- A fresh store-assigned identifier, rendered as 24 lowercase hex
characters; derived from the collection size so consecutive insertions
get distinct identifiers. -/
def freshOid (n : Nat) : String :=
  let hex := Nat.toDigits 16 n
  String.mk (List.replicate (24 - hex.length) '0' ++ hex)

/-- Modelled from the spec (section 4.1, `insert(record) -> identifier`):
the `create_document` operation of the absent `database` module assigns a
new unique identifier, persists the record in the collection and returns
the identifier as a string. -/
def create_document (store : List Doc) (a : Article) : String × List Doc :=
  let oid := freshOid store.length
  (oid, store ++ [articleToDoc oid a])

/-- Outcome of the `POST /api/articles` pipeline: the framework rejects a
body that fails model validation before the handler runs; otherwise the
handler inserts and returns the new id, and any store exception becomes a
500 response. -/
inductive CreateResult where
  | validationError (msg : String)
  | ok (id : String)
deriving DecidableEq, Repr

/-- Embedding of the `POST /api/articles` pipeline around `create_article`
(src/main.py lines 116-123): pydantic validation of the request body runs
first; only a validated `Article` reaches `create_document`.  The store is
returned unchanged when validation fails. -/
def create_article_endpoint (store : List Doc) (title category : String)
    (summary : Option String) (content : String) (image_url : Option String)
    (published_at : Option Datetime) : CreateResult × List Doc :=
  match Article.validate title category summary content image_url published_at with
  | .error e => (.validationError e, store)
  | .ok a =>
    let r := create_document store a
    (.ok r.1, r.2)

/-- First sample record of the seed batch (src/main.py lines 136-144). -/
def sampleAlexandria : Article :=
  ⟨"Echoes of the Library of Alexandria", "history",
    some "The rise, brilliance, and mysteries surrounding the ancient world's greatest repository of knowledge.",
    "Founded in the 3rd century BCE, the Library of Alexandria became a beacon of scholarship...",
    some "https://images.unsplash.com/photo-1524178232363-1fb2b075b655", none⟩

/-- Second sample record of the seed batch (src/main.py lines 145-153). -/
def sampleAthena : Article :=
  ⟨"The Many Faces of Athena", "mythology",
    some "From warrior goddess to patron of wisdom — tracing Athena across cultures.",
    "Athena, revered in classical Greece, embodied strategy, crafts, and civic virtue...",
    some "https://images.unsplash.com/photo-1520785643438-5bf77931f29a", none⟩

/-- Third sample record of the seed batch (src/main.py lines 154-162). -/
def sampleAntikythera : Article :=
  ⟨"Antikythera Mechanism: The Ancient Computer", "science",
    some "A 2,000-year-old device that predicted celestial events with surprising precision.",
    "Recovered from a shipwreck in 1901, the Antikythera mechanism challenged our assumptions about ancient engineering...",
    some "https://images.unsplash.com/photo-1518770660439-4636190af475", none⟩

/-- The fixed hard-coded sample batch of `seed_content` (src/main.py lines
135-163). -/
def samples : List Article := [sampleAlexandria, sampleAthena, sampleAntikythera]

/-- Success payload of `POST /api/seed`: either the collection already had
content (reporting the existing count) or the batch was seeded (reporting
the number inserted). -/
inductive SeedResponse where
  | alreadyExists (count : Nat)
  | seeded (inserted : Nat)
deriving DecidableEq, Repr

/-- The insertion loop of `seed_content` (src/main.py lines 165-168), with
the store adapter's possible per-insertion failure made explicit:
`failAt i` says whether the i-th insertion raises (modelled from the spec,
section 4.4: mid-batch failure leaves earlier insertions in place; the
loop itself has no error handling, so a raise aborts it). -/
def seedLoop (failAt : Nat → Bool) :
    List Article → List Doc → Nat → Except Unit Nat × List Doc
  | [], store, inserted => (.ok inserted, store)
  | a :: rest, store, inserted =>
    if failAt inserted then (.error (), store)
    else seedLoop failAt rest (create_document store a).2 (inserted + 1)

/-- Embedding of the `POST /api/seed` handler `seed_content` (src/main.py
lines 126-170): 500 when the store is unconfigured; when the collection
counts more than zero documents, report the existing count without
mutation; otherwise insert the sample batch one record at a time and
report the number inserted.  An uncaught insertion exception surfaces as
the framework's 500 response.  `failAt` parametrises the modelled store
failures; `fun i => false` is the failure-free store. -/
def seed_content (failAt : Nat → Bool) (db : Option (List Doc)) :
    Except ErrResp SeedResponse × Option (List Doc) :=
  match db with
  | none => (.error (500, "Database not configured"), none)
  | some store =>
    let count := store.length
    if count > 0 then (.ok (.alreadyExists count), some store)
    else
      match seedLoop failAt samples store 0 with
      | (.ok inserted, store2) => (.ok (.seeded inserted), some store2)
      | (.error _, store2) => (.error (500, "Internal Server Error"), some store2)

/-- The three documents that seeding an empty collection persists, with
the identifiers assigned at collection sizes 0, 1 and 2. -/
def seedDocs : List Doc :=
  [articleToDoc (freshOid 0) sampleAlexandria,
   articleToDoc (freshOid 1) sampleAthena,
   articleToDoc (freshOid 2) sampleAntikythera]

/-- Concrete stored document used as a listing input: an article titled
`abc`. -/
def docAbc : Doc :=
  [("_id", BsonVal.objectId "aaaaaaaaaaaaaaaaaaaaaaaa"),
   ("title", BsonVal.str "abc")]

/-- Concrete stored document carrying both the store identifier and a
pre-existing `id` field. -/
def docWithIdField : Doc :=
  [("_id", BsonVal.objectId "bbbbbbbbbbbbbbbbbbbbbbbb"),
   ("id", BsonVal.str "old")]

/-- Case-insensitive plain-substring containment, written after the words
of the specification sentence on keyword search ("case-insensitive
substring match, plain contains"), for comparison with the behaviour of
the code's regex filter. -/
def listStartsWith : List Char → List Char → Bool
  | [], _ => true
  | _ :: _, [] => false
  | a :: as, b :: bs => a == b && listStartsWith as bs

/-- The characters of a string, lowercased (the character list of
`str.lower()`). -/
def lowerChars (s : String) : List Char :=
  s.data.map Char.toLower

/-- Whether `q` occurs in `t` as a case-insensitive plain substring (the
specification words for C2), with no pattern interpretation of `q`. -/
def spec_containsCI (q t : String) : Bool :=
  (lowerChars t).tails.any (listStartsWith (lowerChars q))

/-! Lemmas about the dict operations, used to reason about
`serialize_doc`. -/

theorem dictGet?_cons (a : String × BsonVal) (t : Doc) (k : String) :
    dictGet? k (a :: t) = if a.1 = k then some a.2 else dictGet? k t := by
  by_cases h : a.1 = k <;> simp [dictGet?, h]

theorem dictGet?_append (k : String) (d e : Doc) :
    dictGet? k (d ++ e) = (dictGet? k d).or (dictGet? k e) := by
  induction d with
  | nil => simp [dictGet?]
  | cons a t ih => by_cases h : a.1 = k <;> simp [dictGet?_cons, h, ih]

theorem dictGet?_mapVal (f : BsonVal → BsonVal) (k : String) (d : Doc) :
    dictGet? k (d.map (fun kv => (kv.1, f kv.2))) = Option.map f (dictGet? k d) := by
  induction d with
  | nil => rfl
  | cons a t ih => by_cases h : a.1 = k <;> simp [dictGet?_cons, h, ih]

theorem dictPop_cons (k : String) (a : String × BsonVal) (t : Doc) :
    dictPop k (a :: t) = if a.1 = k then dictPop k t else a :: dictPop k t := by
  by_cases h : a.1 = k <;> simp [dictPop, List.filter_cons, h]

theorem dictGet?_pop_self (k : String) (d : Doc) :
    dictGet? k (dictPop k d) = none := by
  induction d with
  | nil => rfl
  | cons a t ih => by_cases h : a.1 = k <;> simp [dictPop_cons, dictGet?_cons, h, ih]

theorem dictGet?_pop_ne (k k' : String) (h : k ≠ k') (d : Doc) :
    dictGet? k (dictPop k' d) = dictGet? k d := by
  induction d with
  | nil => rfl
  | cons a t ih =>
    by_cases h2 : a.1 = k' <;> by_cases h3 : a.1 = k <;>
      simp_all [dictPop_cons, dictGet?_cons]

theorem mapUpd_get_self (k : String) (v : BsonVal) (d : Doc)
    (hc : dictContains k d = true) :
    dictGet? k (d.map (fun kv => if kv.1 = k then (k, v) else kv)) = some v := by
  induction d with
  | nil => simp [dictContains, dictGet?] at hc
  | cons a t ih =>
    by_cases h : a.1 = k
    · simp [dictGet?_cons, h]
    · have hc2 : dictContains k t = true := by
        simpa [dictContains, dictGet?_cons, h] using hc
      simp [dictGet?_cons, h, ih hc2]

theorem mapUpd_get_ne (k k' : String) (v : BsonVal) (h : k ≠ k') (d : Doc) :
    dictGet? k (d.map (fun kv => if kv.1 = k' then (k', v) else kv)) =
      dictGet? k d := by
  induction d with
  | nil => rfl
  | cons a t ih =>
    by_cases h2 : a.1 = k'
    · have hk : k' ≠ k := Ne.symm h
      simp [dictGet?_cons, h2, hk, ih]
    · by_cases h3 : a.1 = k <;> simp [dictGet?_cons, h2, h3, h, ih]

theorem dictGet?_none_of_not_contains (k : String) (d : Doc)
    (hc : dictContains k d = false) : dictGet? k d = none := by
  cases hg : dictGet? k d with
  | none => rfl
  | some v => simp [dictContains, hg] at hc

theorem dictGet?_set_self (k : String) (v : BsonVal) (d : Doc) :
    dictGet? k (dictSet k v d) = some v := by
  by_cases hc : dictContains k d
  · simp [dictSet, hc, mapUpd_get_self k v d hc]
  · have hn := dictGet?_none_of_not_contains k d (Bool.of_not_eq_true hc)
    simp [dictSet, hc, dictGet?_append, hn, dictGet?_cons]

theorem dictGet?_set_ne (k k' : String) (v : BsonVal) (h : k ≠ k') (d : Doc) :
    dictGet? k (dictSet k' v d) = dictGet? k d := by
  by_cases hc : dictContains k' d
  · simp [dictSet, hc, mapUpd_get_ne k k' v h d]
  · have hk : k' ≠ k := Ne.symm h
    simp [dictSet, hc, dictGet?_append, dictGet?_cons, hk, dictGet?]

/-! Lemmas about `serialize_doc`. -/

theorem serialize_doc_eq (doc : Doc) :
    serialize_doc doc =
      ((match dictGet? "_id" doc with
        | some v => dictSet "id" (.str (pyStr v)) (dictPop "_id" doc)
        | none => doc : Doc)).map (fun kv => (kv.1, convertDatetimes kv.2)) := rfl

theorem serialize_doc_no_internal_id (doc : Doc) :
    dictGet? "_id" (serialize_doc doc) = none := by
  rw [serialize_doc_eq]
  cases hid : dictGet? "_id" doc with
  | none => simp [dictGet?_mapVal, hid]
  | some v =>
    simp [dictGet?_mapVal,
      dictGet?_set_ne "_id" "id" (.str (pyStr v)) (by decide),
      dictGet?_pop_self]

theorem serialize_doc_id_str (doc : Doc) (v : BsonVal)
    (hid : dictGet? "_id" doc = some v) :
    dictGet? "id" (serialize_doc doc) = some (BsonVal.str (pyStr v)) := by
  rw [serialize_doc_eq, hid]
  rw [dictGet?_mapVal, dictGet?_set_self]
  rfl

theorem serialize_doc_get_other (doc : Doc) (k : String)
    (h1 : k ≠ "_id") (h2 : k ≠ "id") :
    dictGet? k (serialize_doc doc) =
      Option.map convertDatetimes (dictGet? k doc) := by
  rw [serialize_doc_eq]
  cases hid : dictGet? "_id" doc with
  | none => simp [dictGet?_mapVal]
  | some v =>
    rw [dictGet?_mapVal, dictGet?_set_ne k "id" (.str (pyStr v)) h2,
      dictGet?_pop_ne k "_id" h1]

theorem convertDatetimes_idem (v : BsonVal) :
    convertDatetimes (convertDatetimes v) = convertDatetimes v := by
  cases v <;> rfl

theorem mapConvert_idem (l : Doc) :
    (l.map (fun kv => (kv.1, convertDatetimes kv.2))).map
        (fun kv => (kv.1, convertDatetimes kv.2)) =
      l.map (fun kv => (kv.1, convertDatetimes kv.2)) := by
  induction l with
  | nil => rfl
  | cons a t ih => simp [ih, convertDatetimes_idem]

/-! Claim theorems. -/

/-- C1: serializing a stored record never fails (`serialize_doc` is a
total function over every record shape, whatever optional or bookkeeping
fields are absent), and for every record carrying the store-assigned
identifier field `_id` — every record the store hands back does — the
output contains `id` bound to a string and does not contain `_id`. -/
theorem serialize_doc_id_contract (doc : Doc)
    (h : dictContains "_id" doc = true) :
    (∃ s, dictGet? "id" (serialize_doc doc) = some (BsonVal.str s)) ∧
    dictContains "_id" (serialize_doc doc) = false := by
  obtain ⟨v, hv⟩ : ∃ v, dictGet? "_id" doc = some v := by
    cases hg : dictGet? "_id" doc with
    | none => simp [dictContains, hg] at h
    | some v => exact ⟨v, rfl⟩
  refine ⟨⟨pyStr v, serialize_doc_id_str doc v hv⟩, ?_⟩
  simp [dictContains, serialize_doc_no_internal_id]

/-- Witness for C1 at a concrete record that lacks every optional and
bookkeeping field. -/
theorem serialize_doc_id_contract_witness :
    (∃ s, dictGet? "id" (serialize_doc [("_id", BsonVal.objectId "00ff")]) =
      some (BsonVal.str s)) ∧
    dictContains "_id" (serialize_doc [("_id", BsonVal.objectId "00ff")]) = false :=
  serialize_doc_id_contract [("_id", BsonVal.objectId "00ff")] (by decide)

/-- C9 counterexample: the claim says every field other than the
store-internal identifier and temporal-valued fields is left unchanged,
but on a record that already carries an `id` field, `serialize_doc`
overwrites that field (key `id`, a non-temporal string value, distinct
from the `_id` key) with the stringified identifier. -/
theorem serialize_doc_frame_counterexample :
    dictGet? "id" docWithIdField = some (BsonVal.str "old") ∧
    convertDatetimes (BsonVal.str "old") = BsonVal.str "old" ∧
    dictGet? "id" (serialize_doc docWithIdField) =
      some (BsonVal.str "bbbbbbbbbbbbbbbbbbbbbbbb") := by
  refine ⟨rfl, rfl, rfl⟩

/-- C9 (amended): serialization leaves every field other than the
store-internal `_id` field, a pre-existing `id` field (which the
stringified identifier overwrites) and temporal-valued fields unchanged
(same key, same value, temporal values replaced by their ISO strings),
and performs no renaming other than replacing `_id` with `id`. -/
theorem serialize_doc_frame (doc : Doc) (k : String)
    (h1 : k ≠ "_id") (h2 : k ≠ "id") :
    dictGet? k (serialize_doc doc) =
      Option.map convertDatetimes (dictGet? k doc) :=
  serialize_doc_get_other doc k h1 h2

/-- Witness for C9 (amended) at a concrete record with a plain field and
a temporal field. -/
theorem serialize_doc_frame_witness :
    dictGet? "summary"
        (serialize_doc [("_id", BsonVal.objectId "ab"),
          ("summary", BsonVal.str "s"),
          ("published_at", BsonVal.datetime ⟨2020, 1, 2, 3, 4, 5, 0⟩)]) =
      Option.map convertDatetimes
        (dictGet? "summary" [("_id", BsonVal.objectId "ab"),
          ("summary", BsonVal.str "s"),
          ("published_at", BsonVal.datetime ⟨2020, 1, 2, 3, 4, 5, 0⟩)]) :=
  serialize_doc_frame
    [("_id", BsonVal.objectId "ab"), ("summary", BsonVal.str "s"),
     ("published_at", BsonVal.datetime ⟨2020, 1, 2, 3, 4, 5, 0⟩)]
    "summary" (by decide) (by decide)

/-- C10: serialization is idempotent — the first pass removes the `_id`
field and converts every temporal value to a string, so running
`serialize_doc` on an already-serialized record is the identity. -/
theorem serialize_doc_idempotent (doc : Doc) :
    serialize_doc (serialize_doc doc) = serialize_doc doc := by
  rw [serialize_doc_eq (serialize_doc doc), serialize_doc_no_internal_id]
  rw [serialize_doc_eq doc]
  exact mapConvert_idem _

/-- C5: listing with an empty-string keyword builds exactly the filter
built when the keyword is absent (the empty string is falsy in the
handler's `if q:` test), so the result is identical for every store state,
category and limit. -/
theorem list_articles_empty_keyword (db : Option (List Doc))
    (category : Option String) (lim : Nat) :
    list_articles db category (some "") lim =
      list_articles db category none lim := by
  cases db <;> rfl

/-- C7: constructing an `Article` whose category is outside the literal
set {history, mythology, science} fails validation with an error, and the
create pipeline returns that validation failure with the store unchanged —
no store operation happens for such input. -/
theorem create_article_invalid_category (store : List Doc)
    (title : String) (summary : Option String) (content : String)
    (image_url : Option String) (published_at : Option Datetime)
    (category : String)
    (hcat : allowedCategories.contains category = false) :
    (∃ e, Article.validate title category summary content image_url
        published_at = .error e) ∧
    create_article_endpoint store title category summary content image_url
        published_at =
      (.validationError ("Input should be a literal value: category=" ++ category),
       store) := by
  have hv : Article.validate title category summary content image_url
      published_at =
      .error ("Input should be a literal value: category=" ++ category) := by
    unfold Article.validate
    rw [hcat]
    rfl
  exact ⟨⟨_, hv⟩, by simp [create_article_endpoint, hv]⟩

/-- Witness for C7: creating an article with category `atlantis` fails
validation and leaves the (empty) store untouched. -/
theorem create_article_invalid_category_witness :
    (∃ e, Article.validate "Atlantis Rising" "atlantis" none "lost city"
        none none = .error e) ∧
    create_article_endpoint [] "Atlantis Rising" "atlantis" none "lost city"
        none none =
      (.validationError ("Input should be a literal value: category=" ++ "atlantis"),
       []) :=
  create_article_invalid_category [] "Atlantis Rising" none "lost city"
    none none "atlantis" (by decide)

/-- C8: with no database handle configured, the listing, detail and seed
handlers each answer the well-defined 500 "Database not configured" error
(and the seed handler performs no mutation), for every request. -/
theorem unconfigured_store_errors (category q : Option String) (lim : Nat)
    (i : String) (failAt : Nat → Bool) :
    list_articles none category q lim = .error (500, "Database not configured") ∧
    get_article none i = .error (500, "Database not configured") ∧
    seed_content failAt none = (.error (500, "Database not configured"), none) :=
  ⟨rfl, rfl, rfl⟩

/-- C4: with the store configured, every detail lookup lands in exactly
one of three mutually exclusive outcomes: a syntactically invalid
identifier answers 400; a valid identifier matching no stored document
answers 404; a valid identifier matching a stored document answers the
serialized document.  The disjunction is driven by the decidable
conditions (validity, lookup result), so the outcomes are exhaustive. -/
theorem get_article_trichotomy (store : List Doc) (i : String) :
    (isValidObjectId i = false ∧
      get_article (some store) i = .error (400, "Invalid article id")) ∨
    (isValidObjectId i = true ∧ find_one_by_id store (oidCanon i) = none ∧
      get_article (some store) i = .error (404, "Article not found")) ∨
    (∃ d, isValidObjectId i = true ∧
      find_one_by_id store (oidCanon i) = some d ∧
      get_article (some store) i = .ok (serialize_doc d)) := by
  cases hv : isValidObjectId i with
  | false =>
    left
    exact ⟨rfl, by simp [get_article, hv]⟩
  | true =>
    cases hf : find_one_by_id store (oidCanon i) with
    | none =>
      right; left
      exact ⟨rfl, rfl, by simp [get_article, hv, hf]⟩
    | some d =>
      right; right
      have hp := List.find?_some hf
      have hne : d.isEmpty = false := by
        cases d with
        | nil => simp [dictGet?] at hp
        | cons a t => rfl
      exact ⟨d, rfl, rfl, by simp [get_article, hv, hf, hne]⟩

/-- C2 counterexample: the keyword is passed to the store as a regular
expression, not a plain substring.  Listing with keyword `a.c` returns
the record titled `abc` — the `.` matched `b` — even though `a.c` is not
a case-insensitive substring of `abc`, refuting the "plain contains, not
keyword-dependent pattern interpretation" reading. -/
theorem list_articles_keyword_counterexample :
    list_articles (some [docAbc]) none (some "a.c") 50 =
      .ok [serialize_doc docAbc] ∧
    dictGet? "title" (serialize_doc docAbc) = some (BsonVal.str "abc") ∧
    spec_containsCI "a.c" "abc" = false :=
  ⟨rfl, rfl, by decide⟩

/-- C2 (amended): for every nonempty keyword, listing returns only
records whose `title` is a string matched by the keyword interpreted as a
case-insensitive regular expression searched anywhere in the title (the
`$regex`/`$options: "i"` constraint the handler builds); for keywords
without regex metacharacters this coincides with case-insensitive
substring containment. -/
theorem list_articles_keyword_regex (store : List Doc)
    (category : Option String) (q : String) (lim : Nat) (out : List Doc)
    (d : Doc) (hq : q ≠ "")
    (hout : list_articles (some store) category (some q) lim = .ok out)
    (hd : d ∈ out) :
    ∃ t, dictGet? "title" d = some (BsonVal.str t) ∧
      regexSearchI q t = true := by
  have hout2 :
      (get_documents store (buildFilter category (some q)) lim).map
        serialize_doc = out := by
    simpa [list_articles] using hout
  rw [← hout2] at hd
  obtain ⟨d0, hd0, rfl⟩ := List.mem_map.1 hd
  have hd0f : d0 ∈ store.filter (matchesFilter (buildFilter category (some q))) :=
    List.take_subset lim _ hd0
  have hmatch : matchesFilter (buildFilter category (some q)) d0 = true :=
    (List.mem_filter.1 hd0f).2
  have hreg : (buildFilter category (some q)).titleRegex = some q := by
    simp [buildFilter, optTruthy, hq]
  have htitle :
      (match dictGet? "title" d0 with
       | some (BsonVal.str t) => regexSearchI q t
       | _ => false) = true := by
    have hm := hmatch
    unfold matchesFilter at hm
    rw [hreg, Bool.and_eq_true] at hm
    exact hm.2
  cases ht : dictGet? "title" d0 with
  | none => rw [ht] at htitle; exact absurd htitle (by simp)
  | some v =>
    cases v with
    | str t =>
      rw [ht] at htitle
      refine ⟨t, ?_, htitle⟩
      rw [serialize_doc_get_other d0 "title" (by decide) (by decide), ht]
      rfl
    | objectId h0 => rw [ht] at htitle; exact absurd htitle (by simp)
    | datetime t0 => rw [ht] at htitle; exact absurd htitle (by simp)
    | int n0 => rw [ht] at htitle; exact absurd htitle (by simp)
    | bool b0 => rw [ht] at htitle; exact absurd htitle (by simp)
    | null => rw [ht] at htitle; exact absurd htitle (by simp)

/-- Witness for C2 (amended): the record returned for keyword `a.c` has a
string title that the case-insensitive regex search accepts. -/
theorem list_articles_keyword_regex_witness :
    ∃ t, dictGet? "title" (serialize_doc docAbc) = some (BsonVal.str t) ∧
      regexSearchI "a.c" t = true :=
  list_articles_keyword_regex [docAbc] none "a.c" 50 [serialize_doc docAbc]
    (serialize_doc docAbc) (by decide) rfl (by simp)

/-- Evaluation of the seed handler on an empty collection for an arbitrary
pattern of insertion failures: the loop runs the three sample insertions
in order, stopping at the first failing one; every insertion already
performed stays in the store. -/
theorem seed_content_empty_unfold (failAt : Nat → Bool) :
    seed_content failAt (some []) =
      if failAt 0 then
        (.error (500, "Internal Server Error"), some (seedDocs.take 0))
      else if failAt 1 then
        (.error (500, "Internal Server Error"), some (seedDocs.take 1))
      else if failAt 2 then
        (.error (500, "Internal Server Error"), some (seedDocs.take 2))
      else (.ok (.seeded 3), some seedDocs) := by
  cases h0 : failAt 0 <;> cases h1 : failAt 1 <;> cases h2 : failAt 2 <;>
    simp [seed_content, seedLoop, samples, seedDocs, create_document,
      h0, h1, h2]

/-- C3: seeding an empty article collection inserts exactly the fixed
hard-coded three-record sample batch and reports an inserted count of 3;
invoking the seed handler on any populated collection performs zero
insertions (the store is returned unchanged) and reports the existing
record count. -/
theorem seed_content_empty_then_populated (store : List Doc)
    (h : store ≠ []) :
    seed_content (fun _ => false) (some []) =
      (.ok (.seeded 3), some seedDocs) ∧
    seed_content (fun _ => false) (some store) =
      (.ok (.alreadyExists store.length), some store) := by
  constructor
  · rw [seed_content_empty_unfold]
    rfl
  · have hl : 0 < store.length := List.length_pos.mpr h
    simp [seed_content, hl]

/-- Witness for C3: seeding the empty collection, then seeding again on
the resulting three-record collection. -/
theorem seed_content_empty_then_populated_witness :
    seed_content (fun _ => false) (some []) =
      (.ok (.seeded 3), some seedDocs) ∧
    seed_content (fun _ => false) (some seedDocs) =
      (.ok (.alreadyExists seedDocs.length), some seedDocs) :=
  seed_content_empty_then_populated seedDocs (by simp [seedDocs])

/-- C6 counterexample: with the second insertion failing, seeding an
empty collection leaves the partial one-record batch in the store (no
rollback) but the operation surfaces the uncaught insertion exception as
a 500 — it does not report the number successfully inserted. -/
theorem seed_content_partial_counterexample :
    (seed_content (fun i => i == 1) (some [])).2 = some (seedDocs.take 1) ∧
    (seed_content (fun i => i == 1) (some [])).1 ≠ .ok (.seeded 1) := by
  constructor
  · rw [seed_content_empty_unfold]
    rfl
  · rw [seed_content_empty_unfold]
    intro hcon
    exact Except.noConfusion hcon

/-- C6 (amended): when seeding an empty collection the sample records are
inserted one at a time and independently, with no rollback: if every
insertion succeeds the handler reports the full batch count of 3, and if
the first failure happens at position j the j records already inserted
remain in the store while the handler fails with the uncaught insertion
error instead of reporting the partial count. -/
theorem seed_content_batch_independent (failAt : Nat → Bool) :
    ((∀ i, i < 3 → failAt i = false) →
      seed_content failAt (some []) = (.ok (.seeded 3), some seedDocs)) ∧
    (∀ j, j < 3 → (∀ i, i < j → failAt i = false) → failAt j = true →
      seed_content failAt (some []) =
        (.error (500, "Internal Server Error"), some (seedDocs.take j))) := by
  constructor
  · intro hall
    rw [seed_content_empty_unfold, hall 0 (by omega), hall 1 (by omega),
      hall 2 (by omega)]
    rfl
  · intro j hj hpre hfail
    interval_cases j
    · rw [seed_content_empty_unfold, hfail]
      rfl
    · rw [seed_content_empty_unfold, hpre 0 (by omega), hfail]
      rfl
    · rw [seed_content_empty_unfold, hpre 0 (by omega), hpre 1 (by omega),
        hfail]
      rfl

/-- Witness for C6 (amended): the second insertion failing leaves exactly
the first sample record in the store and a 500 outcome. -/
theorem seed_content_batch_independent_witness :
    seed_content (fun i => 1 ≤ i && i ≤ 1) (some []) =
      (.error (500, "Internal Server Error"), some (seedDocs.take 1)) :=
  (seed_content_batch_independent (fun i => 1 ≤ i && i ≤ 1)).2 1 (by omega)
    (fun i hi => by interval_cases i; rfl) (by rfl)

end MysticalAPI
